import Mathlib

set_option maxRecDepth 20000

/-!
Verification development for the YouTube lyric metrics agent
(`Burak_Kurt_YouTube_AI.py`).  The deterministic core of the program —
the per-track metrics calculator, the album fingerprint generator, the
aggregation step of `run`, and the small pure glue around the external
collaborators — is embedded shallowly below.  External collaborators
(the tiktoken tokenizer, the sentence-embedding model, the JSON parser
of the standard library, the web scrapers) are kept abstract as function
parameters; everything the program itself computes (MD5, string joins,
splitting, rounding, truthiness checks) is modelled concretely.
-/

/-! ## UTF-8 encoding (model of Python `str.encode("utf-8")`) -/

/-- Encode one Unicode code point as its UTF-8 byte sequence. -/
def utf8EncodeChar (c : Char) : List Nat :=
  let n := c.toNat
  if n < 128 then [n]
  else if n < 2048 then [192 ||| (n >>> 6), 128 ||| (n &&& 63)]
  else if n < 65536 then
    [224 ||| (n >>> 12), 128 ||| ((n >>> 6) &&& 63), 128 ||| (n &&& 63)]
  else
    [240 ||| (n >>> 18), 128 ||| ((n >>> 12) &&& 63),
     128 ||| ((n >>> 6) &&& 63), 128 ||| (n &&& 63)]

/-- UTF-8 bytes of a string, as natural numbers below 256. -/
def utf8Bytes (s : String) : List Nat :=
  (s.data.map utf8EncodeChar).flatten

/-! ## MD5 (model of Python `hashlib.md5`), RFC 1321 -/

/-- The 64 sine-derived round constants of MD5. -/
def md5K : List Nat :=
  [0xd76aa478, 0xe8c7b756, 0x242070db, 0xc1bdceee, 0xf57c0faf, 0x4787c62a, 0xa8304613, 0xfd469501,
   0x698098d8, 0x8b44f7af, 0xffff5bb1, 0x895cd7be, 0x6b901122, 0xfd987193, 0xa679438e, 0x49b40821,
   0xf61e2562, 0xc040b340, 0x265e5a51, 0xe9b6c7aa, 0xd62f105d, 0x02441453, 0xd8a1e681, 0xe7d3fbc8,
   0x21e1cde6, 0xc33707d6, 0xf4d50d87, 0x455a14ed, 0xa9e3e905, 0xfcefa3f8, 0x676f02d9, 0x8d2a4c8a,
   0xfffa3942, 0x8771f681, 0x6d9d6122, 0xfde5380c, 0xa4beea44, 0x4bdecfa9, 0xf6bb4b60, 0xbebfbc70,
   0x289b7ec6, 0xeaa127fa, 0xd4ef3085, 0x04881d05, 0xd9d4d039, 0xe6db99e5, 0x1fa27cf8, 0xc4ac5665,
   0xf4292244, 0x432aff97, 0xab9423a7, 0xfc93a039, 0x655b59c3, 0x8f0ccc92, 0xffeff47d, 0x85845dd1,
   0x6fa87e4f, 0xfe2ce6e0, 0xa3014314, 0x4e0811a1, 0xf7537e82, 0xbd3af235, 0x2ad7d2bb, 0xeb86d391]

/-- The 64 per-round left-rotation amounts of MD5. -/
def md5S : List Nat :=
  [7, 12, 17, 22, 7, 12, 17, 22, 7, 12, 17, 22, 7, 12, 17, 22,
   5, 9, 14, 20, 5, 9, 14, 20, 5, 9, 14, 20, 5, 9, 14, 20,
   4, 11, 16, 23, 4, 11, 16, 23, 4, 11, 16, 23, 4, 11, 16, 23,
   6, 10, 15, 21, 6, 10, 15, 21, 6, 10, 15, 21, 6, 10, 15, 21]

/-- 32-bit left rotation. -/
def rotl32 (x n : Nat) : Nat :=
  ((x <<< n) ||| (x >>> (32 - n))) % 4294967296

/-- The four bytes of a 32-bit word, little-endian. -/
def le4 (x : Nat) : List Nat :=
  [x % 256, x / 256 % 256, x / 65536 % 256, x / 16777216 % 256]

/-- The eight bytes of a 64-bit word, little-endian. -/
def le8 (x : Nat) : List Nat :=
  le4 (x % 4294967296) ++ le4 (x / 4294967296)

/-- MD5 padding: a 1-bit, zeros to 56 mod 64 bytes, then the 64-bit
little-endian bit length. -/
def md5Pad (msg : List Nat) : List Nat :=
  let len := msg.length
  let zeros := (64 + 56 - (len + 1) % 64) % 64
  msg ++ 128 :: List.replicate zeros 0 ++ le8 (len * 8 % 18446744073709551616)

/-- The MD5 nonlinear function for round `i` applied to `b`, `c`, `d`. -/
def md5F (i b c d : Nat) : Nat :=
  if i < 16 then (b &&& c) ||| ((4294967295 ^^^ b) &&& d)
  else if i < 32 then (d &&& b) ||| ((4294967295 ^^^ d) &&& c)
  else if i < 48 then b ^^^ c ^^^ d
  else c ^^^ (b ||| (4294967295 ^^^ d))

/-- The message-word index used in round `i`. -/
def md5G (i : Nat) : Nat :=
  if i < 16 then i
  else if i < 32 then (5 * i + 1) % 16
  else if i < 48 then (3 * i + 5) % 16
  else (7 * i) % 16

/-- The four 32-bit state registers of the MD5 compression function. -/
structure MD5State where
  a : Nat
  b : Nat
  c : Nat
  d : Nat

/-- Word `g` (little-endian) of a 64-byte chunk. -/
def md5Word (chunk : List Nat) (g : Nat) : Nat :=
  chunk.getD (4 * g) 0 + 256 * chunk.getD (4 * g + 1) 0 +
    65536 * chunk.getD (4 * g + 2) 0 + 16777216 * chunk.getD (4 * g + 3) 0

/-- One round of the MD5 compression function. -/
def md5Step (chunk : List Nat) (st : MD5State) (i : Nat) : MD5State :=
  let f := (md5F i st.b st.c st.d + st.a + md5K.getD i 0 + md5Word chunk (md5G i)) % 4294967296
  { a := st.d, b := (st.b + rotl32 f (md5S.getD i 0)) % 4294967296, c := st.b, d := st.c }

/-- Compress one 64-byte chunk into the running state. -/
def md5Chunk (st : MD5State) (chunk : List Nat) : MD5State :=
  let r := (List.range 64).foldl (md5Step chunk) st
  { a := (st.a + r.a) % 4294967296, b := (st.b + r.b) % 4294967296,
    c := (st.c + r.c) % 4294967296, d := (st.d + r.d) % 4294967296 }

/-- Process `n` chunks of 64 bytes from the front of `bytes`. -/
def md5Loop : Nat → List Nat → MD5State → MD5State
  | 0, _, st => st
  | n + 1, bytes, st => md5Loop n (bytes.drop 64) (md5Chunk st (bytes.take 64))

/-- The 16-byte MD5 digest of a byte string. -/
def md5Bytes (msg : List Nat) : List Nat :=
  let padded := md5Pad msg
  let st := md5Loop (padded.length / 64) padded
    { a := 0x67452301, b := 0xefcdab89, c := 0x98badcfe, d := 0x10325476 }
  le4 st.a ++ le4 st.b ++ le4 st.c ++ le4 st.d

/-- The two lowercase hex characters of one byte. -/
def byteHex (b : Nat) : List Char :=
  [Nat.digitChar (b / 16 % 16), Nat.digitChar (b % 16)]

/-- Lowercase hexadecimal rendering of a byte string. -/
def bytesToHex (bs : List Nat) : String :=
  String.mk ((bs.map byteHex).flatten)

/-- Model of Python `hashlib.md5(x).hexdigest()`. -/
def md5hex (msg : List Nat) : String :=
  bytesToHex (md5Bytes msg)

/-! ## Rounding and fixed-point formatting

Python `round(x, 2)` rounds half to even; `f"{x:.10f}"` renders with
exactly ten digits after the decimal point.  Numeric values are modelled
as exact rationals. -/

/-- The floor of a rational, computed by flooring division of the
numerator by the denominator. -/
def floorQ (q : ℚ) : ℤ := q.num.fdiv (q.den : ℤ)

/-- Round a rational to the nearest integer, ties to even
(the rounding used by Python `round`). -/
def roundHalfEven (q : ℚ) : ℤ :=
  let f := floorQ q
  let r := q - (f : ℚ)
  if r < 1 / 2 then f
  else if 1 / 2 < r then f + 1
  else if f % 2 = 0 then f else f + 1

/-- Model of Python `round(x, 2)`. -/
def round2 (q : ℚ) : ℚ :=
  (roundHalfEven (q * 100) : ℚ) / 100

/-- The ten decimal digits of `n` (which represents a 10-digit fraction),
most significant first. -/
def fixed10Digits (n : Nat) : List Char :=
  (List.range 10).map (fun i => Nat.digitChar (n / 10 ^ (9 - i) % 10))

/-- Model of Python `f"{x:.10f}"`: sign, integer part, a dot, and exactly
ten digits after the decimal point. -/
def fmt10 (q : ℚ) : String :=
  let m : Nat := (roundHalfEven (|q| * 10000000000)).toNat
  (if q < 0 then "-" else "") ++ toString (m / 10000000000) ++ "." ++
    String.mk (fixed10Digits (m % 10000000000))

/-! ## Word splitting (model of Python `str.split()`) -/

/-- ASCII whitespace as recognised by Python `str.split()`. -/
def pyIsSpace (c : Char) : Bool :=
  c == ' ' || c == '\t' || c == '\n' || c == '\r' || c == '\x0b' || c == '\x0c'

/-- Accumulator loop behind `pySplit`: walk the characters, collecting
the current word reversed in `acc`, emitting it at each whitespace run. -/
def pySplitAux : List Char → List Char → List String
  | [], acc => if acc = [] then [] else [String.mk acc.reverse]
  | c :: rest, acc =>
    if pyIsSpace c then
      if acc = [] then pySplitAux rest [] else String.mk acc.reverse :: pySplitAux rest []
    else pySplitAux rest (c :: acc)

/-- Model of Python `s.split()`: split on whitespace runs, no empty pieces. -/
def pySplit (s : String) : List String :=
  pySplitAux s.data []

/-! ## The metrics calculator (`calculate_token_metrics`, lines 236-277) -/

/-- The dictionary returned by `calculate_token_metrics`. -/
structure TokenMetrics where
  chars : Nat
  words : Nat
  tokens : Nat
  tokens_per_word : ℚ
  hash : String
deriving DecidableEq

/-- Model of `calculate_token_metrics`.  The tiktoken tokenizer is an
external collaborator, passed in as `tokenize`; everything else is
computed concretely.  `none` models Python `None`; `if not lyrics` is
true for both `None` and the empty string. -/
def calculate_token_metrics (tokenize : String → List Nat) (lyrics : Option String) :
    TokenMetrics :=
  match lyrics with
  | none =>
    { chars := 0, words := 0, tokens := 0, tokens_per_word := 0,
      hash := md5hex (utf8Bytes ("")) }
  | some s =>
    if s = "" then
      { chars := 0, words := 0, tokens := 0, tokens_per_word := 0,
        hash := md5hex (utf8Bytes ("")) }
    else
      let token_count := (tokenize s).length
      let char_count := s.length
      let word_count := (pySplit s).length
      let tpw := if 0 < word_count then round2 ((token_count : ℚ) / (word_count : ℚ)) else 0
      { chars := char_count, words := word_count, tokens := token_count,
        tokens_per_word := tpw, hash := md5hex (utf8Bytes s) }

/-! ## The fingerprint generator (`generate_embedding_hash`, lines 279-302) -/

/-- Model of `generate_embedding_hash`.  The sentence-embedding model is
an external collaborator, passed in as `embed` and producing a vector of
real numbers modelled as rationals; the join, the `:.10f` formatting and
the MD5 hex digest are computed concretely. -/
def generate_embedding_hash (embed : String → List ℚ) (token_counts : List Int) : String :=
  let token_string := String.intercalate (",") (token_counts.map toString)
  let embedding := embed token_string
  let formatted_embedding := String.intercalate (",") (embedding.map fmt10)
  md5hex (utf8Bytes formatted_embedding)

/-- Spec-side restatement of the fingerprint algorithm (spec section 4.2),
written from the spec text for comparison with `generate_embedding_hash`:
join the counts in order with a comma (empty sequence giving the empty
string), embed, render each component with exactly ten digits after the
decimal point joined with commas in index order, and return the 128-bit
digest of the UTF-8 bytes as lowercase hex. -/
def fingerprint_spec (embed : String → List ℚ) (token_counts : List Int) : String :=
  let joined := if token_counts = [] then "" else String.intercalate (",") (token_counts.map toString)
  let vector := embed joined
  let rendered := String.intercalate (",") (vector.map fmt10)
  md5hex (utf8Bytes rendered)

/-! ## The lyrics retrieval filter (`scrape_genius_lyrics`, lines 220-234)

The scraper run itself is external; `scraped` is the `lyrics` field of
the first result item (`none` when there are no items, no such field, or
the scraper raised).  The tail of the function is concrete: a falsy
(empty) lyrics value and any text of 50 characters or fewer yield `None`. -/

/-- The result filter at the end of `scrape_genius_lyrics`. -/
def scrape_filter (scraped : Option String) : Option String :=
  match scraped with
  | none => none
  | some lyrics =>
    if lyrics = "" then none
    else if 50 < lyrics.length then some lyrics
    else none

/-! ## Tracklist resolution (`get_first_album_songs`, lines 84-155) -/

/-- A JSON value, the shape produced by Python `json.loads`. -/
inductive JVal where
  | jnull : JVal
  | jbool : Bool → JVal
  | jnum : Int → JVal
  | jstr : String → JVal
  | jarr : List JVal → JVal
  | jobj : List (String × JVal) → JVal

/-- Key lookup in a JSON object (Python `album_data[key]`). -/
def lookupKv : List (String × JVal) → String → Option JVal
  | [], _ => none
  | (k, v) :: rest, key => if k = key then some v else lookupKv rest key

/-- The opening code fence with a json language tag. -/
def fenceJson : String := "```json"

/-- A bare code fence. -/
def fence : String := "```"

/-- Model of Python `str.strip()`: remove whitespace from both ends. -/
def pyStrip (cs : List Char) : List Char :=
  ((cs.dropWhile pyIsSpace).reverse.dropWhile pyIsSpace).reverse

/-- Model of the fence-stripping on the model response (lines 136-143):
strip, drop a leading json fence (7 characters), drop a leading bare
fence (3 characters), drop a trailing fence (3 characters), strip again. -/
def strip_fences (s : String) : String :=
  let t1 := pyStrip s.data
  let t2 := if fenceJson.data.isPrefixOf t1 then t1.drop 7 else t1
  let t3 := if fence.data.isPrefixOf t2 then t2.drop 3 else t2
  let t4 := if fence.data.isSuffixOf t3 then t3.take (t3.length - 3) else t3
  String.mk (pyStrip t4)

/-- Model of `get_first_album_songs` after the HTTP call: `json_loads`
is the external JSON parser (`none` models a parse error, which the
function re-raises, as it does a missing key or a non-object document);
on success the function returns the values at `album_name` and `songs`
unchecked — in particular it never inspects whether `songs` is empty. -/
def get_first_album_songs (json_loads : String → Option JVal)
    (response_text : String) : Option (JVal × JVal) :=
  match json_loads (strip_fences response_text) with
  | some (JVal.jobj kvs) =>
    match lookupKv kvs ("album_name"), lookupKv kvs ("songs") with
    | some a, some s => some (a, s)
    | _, _ => none
  | _ => none

/-! ## Identity resolution (`get_artist_from_youtube`, lines 46-82) -/

/-- The fields of a scraper result item that the function reads. -/
structure YtItem where
  channelName : Option String
  author : Option String

/-- Python `x or y` on optional strings: `x` unless it is falsy
(`None` or empty), else `y`. -/
def pyOr (a b : Option String) : Option String :=
  match a with
  | some s => if s = "" then b else some s
  | none => b

/-- Model of `get_artist_from_youtube` given the scraper result items:
no items raises (outer `none`); otherwise the function returns
`channelName or author` of the first item — a value that may itself be
`None` or empty, which is returned without any check. -/
def get_artist_from_youtube (results : List YtItem) : Option (Option String) :=
  match results with
  | [] => none
  | item :: _ => some (pyOr item.channelName item.author)

/-! ## The pipeline (`run`, lines 304-376) -/

/-- One entry of the `songs` array of the JSON output (lines 339-346). -/
structure SongData where
  name : String
  lyrics_length_chars : Nat
  lyrics_length_words : Nat
  lyrics_length_tokens : Nat
  tokens_per_word : ℚ
  lyrics_hash : String
deriving DecidableEq

/-- The JSON output assembled by `run` (lines 355-361). -/
structure JsonOutput where
  artist : String
  album_name : String
  songs : List SongData
  total_tokens_all_songs : Nat
  avg_tokens_per_song : ℚ
deriving DecidableEq

/-- The `songs_data` entry built from one track's metrics. -/
def songDataOf (title : String) (m : TokenMetrics) : SongData :=
  { name := title, lyrics_length_chars := m.chars, lyrics_length_words := m.words,
    lyrics_length_tokens := m.tokens, tokens_per_word := m.tokens_per_word,
    lyrics_hash := m.hash }

/-- The deterministic core of `run` after identity and tracklist
resolution (lines 326-370): per track in album order, fetch lyrics
(`fetchLyrics` models `scrape_genius_lyrics`, `none` for failure or
absence), compute metrics, collect the song entries and token counts;
then totals, the JSON output, and the embedding hash. -/
def runCore (tokenize : String → List Nat) (embed : String → List ℚ)
    (artist_name album_name : String) (songs : List String)
    (fetchLyrics : String → Option String) : JsonOutput × String :=
  let per_track := songs.map (fun title =>
    let metrics := calculate_token_metrics tokenize (fetchLyrics title)
    (songDataOf title metrics, metrics.tokens))
  let songs_data := per_track.map Prod.fst
  let token_counts := per_track.map Prod.snd
  let total_tokens := token_counts.sum
  let avg_tokens := if songs.isEmpty then 0
    else round2 ((total_tokens : ℚ) / (songs.length : ℚ))
  let json_output : JsonOutput :=
    { artist := artist_name, album_name := album_name, songs := songs_data,
      total_tokens_all_songs := total_tokens, avg_tokens_per_song := avg_tokens }
  let embedding_hash := generate_embedding_hash embed (token_counts.map Int.ofNat)
  (json_output, embedding_hash)

/-! ## Fixtures: concrete stand-ins for the external collaborators,
used to instantiate theorems at concrete inputs -/

/-- A concrete stand-in tokenizer: one token per character. -/
def cTokenize : String → List Nat := fun s => s.data.map Char.toNat

/-- A concrete stand-in embedding model producing the empty vector. -/
def cEmbedEmpty : String → List ℚ := fun _ => []

/-- A concrete stand-in embedding model producing a one-component vector. -/
def cEmbedLen : String → List ℚ := fun t => [(t.length : ℚ)]

/-- A 100-character lyrics fixture. -/
def lyricsA : String := String.mk (List.replicate 100 'a')

/-- A 50-character lyrics fixture. -/
def lyricsB : String := String.mk (List.replicate 50 'b')

/-- A fixture lyrics source: 100 characters for track A, 50 for track B,
nothing for any other track. -/
def cFetch : String → Option String := fun t =>
  if t = "A" then some lyricsA else if t = "B" then some lyricsB else none

/-- The lowercase hexadecimal alphabet. -/
def isHexLowerChar (c : Char) : Bool :=
  c.isDigit || (c == 'a' || c == 'b' || c == 'c' || c == 'd' || c == 'e' || c == 'f')

/-- The all-zero song entry produced for a track whose lyrics are absent. -/
def zeroSongData (title : String) : SongData :=
  { name := title, lyrics_length_chars := 0, lyrics_length_words := 0,
    lyrics_length_tokens := 0, tokens_per_word := 0,
    lyrics_hash := md5hex (utf8Bytes ("")) }

/-- A 100-character lyrics fixture with different content than `lyricsA`. -/
def lyricsZ : String := String.mk (List.replicate 100 'z')

/-- A fixture lyrics source for a one-track album whose track is s1. -/
def cFetch1 : String → Option String := fun t => if t = "s1" then some lyricsA else none

/-- A fixture lyrics source for a one-track album whose track is t1,
with lyrics content differing from `cFetch1` but of equal length. -/
def cFetch2 : String → Option String := fun t => if t = "t1" then some lyricsZ else none

/-- The raw model response of the tracklist counterexample: a well-formed
JSON object whose songs list is empty. -/
def cexTracklistResp : String := "\x7b\"album_name\": \"X\", \"songs\": []\x7d"

/-- A concrete stand-in for `json.loads` that parses the counterexample
response to the JSON object it denotes. -/
def cexJsonLoads : String → Option JVal := fun t =>
  if t = cexTracklistResp then
    some (JVal.jobj [(("album_name"), JVal.jstr ("X")), (("songs"), JVal.jarr [])])
  else none

/-! ## Helper lemmas -/

/-- The MD5 model reproduces the well-known digest of the empty string. -/
theorem md5hex_empty_golden : md5hex (utf8Bytes ("")) = "d41d8cd98f00b204e9800998ecf8427e" := by
  decide

/-- The MD5 model reproduces the well-known digest of the string abc. -/
theorem md5hex_abc_golden : md5hex (utf8Bytes ("abc")) = "900150983cd24fb0d6963f7d28e17f72" := by
  decide

/-- This floor model agrees with the integer it is given. -/
theorem floorQ_intCast (z : ℤ) : floorQ ((z : ℚ)) = z := by
  simp [floorQ, Rat.num_intCast, Rat.den_intCast, Int.fdiv_one]

/-- Rounding an integer changes nothing. -/
theorem roundHalfEven_intCast (z : ℤ) : roundHalfEven ((z : ℚ)) = z := by
  simp [roundHalfEven, floorQ_intCast]

/-- The aggregate average of the 150-token three-track fixture. -/
theorem round2_150_div_3 : round2 ((150 : ℚ) / 3) = 50 := by
  have h : (150 : ℚ) / 3 * 100 = ((5000 : ℤ) : ℚ) := by norm_num
  rw [round2, h, roundHalfEven_intCast]
  norm_num

/-- Rounding an integer-valued rational to two decimals changes nothing. -/
theorem round2_intCast (z : ℤ) : round2 ((z : ℚ)) = (z : ℚ) := by
  have h : (z : ℚ) * 100 = ((z * 100 : ℤ) : ℚ) := by push_cast; ring
  rw [round2, h, roundHalfEven_intCast]
  push_cast
  field_simp

/-! ## Claim C3 -/

/-- C3: `calculate_token_metrics` applied to absent lyrics (`None`) and to
the empty string yields identical results — all counts zero,
`tokens_per_word = 0.0`, and `lyrics_hash` equal to the digest of the
empty string — and neither case is an error (the model is total). -/
theorem metrics_absent_equals_empty (tokenize : String → List Nat) :
    calculate_token_metrics tokenize none = calculate_token_metrics tokenize (some ("")) ∧
    calculate_token_metrics tokenize none =
      { chars := 0, words := 0, tokens := 0, tokens_per_word := 0,
        hash := md5hex (utf8Bytes ("")) } ∧
    (calculate_token_metrics tokenize none).hash = "d41d8cd98f00b204e9800998ecf8427e" := by
  refine ⟨rfl, rfl, ?_⟩
  simp [calculate_token_metrics, md5hex_empty_golden]

/-! ## Claim C6 -/

/-- C6: for every lyrics string, `tokens_per_word` equals
`token_count / word_count` rounded to two decimal places when the word
count is positive, and `0.0` whenever the string has no
whitespace-delimited words — including the non-empty whitespace-only
string, with no division-by-zero failure (the model is total). -/
theorem metrics_tokens_per_word_safe (tokenize : String → List Nat) (s : String) :
    (calculate_token_metrics tokenize (some s)).tokens_per_word =
      (if (calculate_token_metrics tokenize (some s)).words = 0 then 0
       else round2 (((calculate_token_metrics tokenize (some s)).tokens : ℚ) /
         ((calculate_token_metrics tokenize (some s)).words : ℚ))) ∧
    (calculate_token_metrics tokenize (some ("   "))).tokens_per_word = 0 := by
  constructor
  · by_cases hs : s = ""
    · subst hs
      simp [calculate_token_metrics]
    · simp only [calculate_token_metrics, if_neg hs]
      rcases Nat.eq_zero_or_pos (pySplit s).length with h0 | hpos
      · simp [h0]
      · have hne : (pySplit s).length ≠ 0 := Nat.pos_iff_ne_zero.mp hpos
        simp [hpos, hne]
  · have hsplit : pySplit ("   ") = [] := by decide
    have hne : ("   " : String) ≠ "" := by decide
    simp [calculate_token_metrics, hne, hsplit]

/-! ## Claim C7 -/

/-- C7: for every non-empty lyrics string, `lyrics_hash` is the MD5
digest of the UTF-8 bytes of the raw, untrimmed lyrics text exactly as
received; in particular the string La la la always hashes to the fixed
literal digest value. -/
theorem metrics_lyrics_hash_md5 (tokenize : String → List Nat) (s : String)
    (h : s ≠ "") :
    (calculate_token_metrics tokenize (some s)).hash = md5hex (utf8Bytes s) ∧
    (calculate_token_metrics tokenize (some ("La la la"))).hash =
      "d0be2de22ce4c73c4c5447b3e0a8c8c3" := by
  constructor
  · simp [calculate_token_metrics, h]
  · have hne : ("La la la" : String) ≠ "" := by decide
    simp only [calculate_token_metrics, if_neg hne]
    decide

/-- Witness for C7 at the concrete lyrics string La la la. -/
theorem metrics_lyrics_hash_md5_witness :
    (calculate_token_metrics cTokenize (some ("La la la"))).hash =
      md5hex (utf8Bytes ("La la la")) ∧
    (calculate_token_metrics cTokenize (some ("La la la"))).hash =
      "d0be2de22ce4c73c4c5447b3e0a8c8c3" :=
  ⟨(metrics_lyrics_hash_md5 cTokenize ("La la la") (by decide)).1,
   (metrics_lyrics_hash_md5 cTokenize ("La la la") (by decide)).2⟩

/-! ## Claim C10 -/

/-- C10: any lyrics text of 50 characters or fewer returned by the
scraper is turned into absence (`None`) by `scrape_genius_lyrics`, so
the track receives zero-metrics exactly as if no lyrics had been found;
only texts strictly longer than 50 characters are passed on. -/
theorem scrape_filter_short_absent (tokenize : String → List Nat) (s : String)
    (h : s.length ≤ 50) :
    scrape_filter (some s) = none ∧
    calculate_token_metrics tokenize (scrape_filter (some s)) =
      calculate_token_metrics tokenize none ∧
    (∀ t : String, scrape_filter (some t) = if 50 < t.length then some t else none) := by
  have hmain : scrape_filter (some s) = none := by
    simp only [scrape_filter]
    by_cases hs : s = ""
    · simp [hs]
    · simp [hs, Nat.not_lt.mpr h]
  refine ⟨hmain, by rw [hmain], ?_⟩
  intro t
  simp only [scrape_filter]
  by_cases ht : t = ""
  · subst ht
    simp
  · simp [ht]

/-- Witness for C10 at a concrete 5-character lyrics text. -/
theorem scrape_filter_short_absent_witness :
    scrape_filter (some ("short")) = none ∧
    calculate_token_metrics cTokenize (scrape_filter (some ("short"))) =
      calculate_token_metrics cTokenize none :=
  ⟨(scrape_filter_short_absent cTokenize ("short") (by decide)).1,
   (scrape_filter_short_absent cTokenize ("short") (by decide)).2.1⟩

/-! ## Hexadecimal output lemmas -/

/-- The first sixteen digit characters are lowercase hexadecimal. -/
theorem digitChar_lt16_hexLower : ∀ n < 16, isHexLowerChar (Nat.digitChar n) = true := by
  decide

/-- Both characters of a byte rendering are lowercase hexadecimal. -/
theorem byteHex_all_hexLower (b : Nat) : (byteHex b).all isHexLowerChar = true := by
  have h1 := digitChar_lt16_hexLower (b / 16 % 16) (Nat.mod_lt _ (by norm_num))
  have h2 := digitChar_lt16_hexLower (b % 16) (Nat.mod_lt _ (by norm_num))
  simp [byteHex, h1, h2]

/-- The characters of a byte-string rendering. -/
theorem bytesToHex_data (bs : List Nat) : (bytesToHex bs).data = (bs.map byteHex).flatten := rfl

/-- Hex rendering yields two characters per byte. -/
theorem flatten_map_byteHex_length (bs : List Nat) :
    ((bs.map byteHex).flatten).length = 2 * bs.length := by
  induction bs with
  | nil => rfl
  | cons b rest ih =>
    simp only [List.map_cons, List.flatten_cons, List.length_append, List.length_cons]
    have hb : (byteHex b).length = 2 := rfl
    omega

/-- Length of a hex-rendered byte string. -/
theorem bytesToHex_length (bs : List Nat) : (bytesToHex bs).length = 2 * bs.length := by
  have h : (bytesToHex bs).length = ((bs.map byteHex).flatten).length := rfl
  rw [h, flatten_map_byteHex_length]

/-- Every character of a hex-rendered byte string is lowercase hexadecimal. -/
theorem bytesToHex_all_hexLower (bs : List Nat) :
    (bytesToHex bs).data.all isHexLowerChar = true := by
  rw [bytesToHex_data]
  induction bs with
  | nil => rfl
  | cons b rest ih =>
    simp only [List.map_cons, List.flatten_cons, List.all_append]
    simp [byteHex_all_hexLower b, ih]

/-- The MD5 digest is sixteen bytes long. -/
theorem md5Bytes_length (msg : List Nat) : (md5Bytes msg).length = 16 := by
  simp [md5Bytes, le4]

/-- The MD5 hex digest is 32 characters long. -/
theorem md5hex_length (msg : List Nat) : (md5hex msg).length = 32 := by
  rw [md5hex, bytesToHex_length, md5Bytes_length]

/-- Every character of the MD5 hex digest is lowercase hexadecimal. -/
theorem md5hex_all_hexLower (msg : List Nat) :
    (md5hex msg).data.all isHexLowerChar = true :=
  bytesToHex_all_hexLower _

/-! ## Fixed-point formatting lemmas -/

/-- The fractional rendering has exactly ten characters. -/
theorem fixed10Digits_length (n : Nat) : (fixed10Digits n).length = 10 := by
  simp [fixed10Digits]

/-- The first ten digit characters are decimal digits and not dots. -/
theorem digitChar_lt10_props :
    ∀ m < 10, ((Nat.digitChar m).isDigit && (Nat.digitChar m != '.')) = true := by
  decide

/-- Every character of the fractional rendering is a decimal digit and
not a dot. -/
theorem fixed10Digits_props (n : Nat) :
    (fixed10Digits n).all (fun c => c.isDigit && (c != '.')) = true := by
  rw [List.all_eq_true]
  intro c hc
  rw [fixed10Digits, List.mem_map] at hc
  obtain ⟨i, _, rfl⟩ := hc
  exact digitChar_lt10_props _ (Nat.mod_lt _ (by norm_num))

/-- Taking while a predicate holds stops exactly at the first failing
element. -/
theorem takeWhile_append_cons (p : Char → Bool) (l r : List Char) (x : Char)
    (hl : l.all p = true) (hx : p x = false) :
    (l ++ x :: r).takeWhile p = l := by
  induction l with
  | nil => simp [List.takeWhile_cons, hx]
  | cons c cs ih =>
    rw [List.all_cons, Bool.and_eq_true] at hl
    simp [List.takeWhile_cons, hl.1, ih hl.2]

/-- Reading a formatted number from the right, everything before the
first dot is exactly the ten-digit fraction. -/
theorem rev_takeWhile_fixed10 (A : List Char) (n : Nat) :
    ((((A ++ ['.']) ++ fixed10Digits n).reverse.takeWhile (fun c => c != '.')).length = 10) ∧
    ((((A ++ ['.']) ++ fixed10Digits n).reverse.takeWhile (fun c => c != '.')).all Char.isDigit
      = true) := by
  have hprops := fixed10Digits_props n
  have h1 : (fixed10Digits n).all (fun c => c != '.') = true := by
    rw [List.all_eq_true] at hprops ⊢
    intro c hc
    exact ((Bool.and_eq_true _ _).mp (hprops c hc)).2
  have h2 : (fixed10Digits n).all Char.isDigit = true := by
    rw [List.all_eq_true] at hprops ⊢
    intro c hc
    exact ((Bool.and_eq_true _ _).mp (hprops c hc)).1
  have hrev : ((A ++ ['.']) ++ fixed10Digits n).reverse =
      (fixed10Digits n).reverse ++ '.' :: A.reverse := by
    simp [List.reverse_append]
  have htake : (((A ++ ['.']) ++ fixed10Digits n).reverse.takeWhile (fun c => c != '.')) =
      (fixed10Digits n).reverse := by
    rw [hrev]
    apply takeWhile_append_cons
    · rw [List.all_reverse]
      exact h1
    · decide
  rw [htake, List.length_reverse, List.all_reverse]
  exact ⟨fixed10Digits_length n, h2⟩

/-- The characters of a formatted number, grouped before the dot and
after it. -/
theorem fmt10_data (q : ℚ) :
    (fmt10 q).data =
      (((if q < 0 then "-" else "").data ++
        (toString ((roundHalfEven (|q| * 10000000000)).toNat / 10000000000)).data) ++ ['.']) ++
      fixed10Digits ((roundHalfEven (|q| * 10000000000)).toNat % 10000000000) := by
  simp [fmt10, String.data_append]

/-- Every formatted number has exactly ten decimal digits after the dot. -/
theorem fmt10_decimals (q : ℚ) :
    ((fmt10 q).data.reverse.takeWhile (fun c => c != '.')).length = 10 ∧
    ((fmt10 q).data.reverse.takeWhile (fun c => c != '.')).all Char.isDigit = true := by
  rw [fmt10_data]
  exact rev_takeWhile_fixed10 _ _

/-! ## Claim C2 -/

/-- The source fingerprint equals its spec-side restatement. -/
theorem geh_eq_spec (embed : String → List ℚ) (tc : List Int) :
    generate_embedding_hash embed tc = fingerprint_spec embed tc := by
  by_cases h : tc = []
  · subst h
    rfl
  · simp [generate_embedding_hash, fingerprint_spec, h]

/-- C2: `generate_embedding_hash` joins the counts in order with commas
(the empty sequence giving the empty string), embeds that string, renders
each vector component with exactly ten digits after the decimal point
joined with commas in index order, and returns the 128-bit digest of the
UTF-8 bytes of that formatted string as lowercase hex (32 lowercase
hexadecimal characters). -/
theorem generate_embedding_hash_refines_spec (embed : String → List ℚ)
    (token_counts : List Int) :
    generate_embedding_hash embed token_counts = fingerprint_spec embed token_counts ∧
    (generate_embedding_hash embed token_counts).length = 32 ∧
    (generate_embedding_hash embed token_counts).data.all isHexLowerChar = true ∧
    (∀ q : ℚ, ((fmt10 q).data.reverse.takeWhile (fun c => c != '.')).length = 10 ∧
      ((fmt10 q).data.reverse.takeWhile (fun c => c != '.')).all Char.isDigit = true) :=
  ⟨geh_eq_spec embed token_counts, md5hex_length _, md5hex_all_hexLower _,
   fun q => fmt10_decimals q⟩

/-! ## Pipeline projection lemmas -/

/-- The song entries of a run: one entry per track, in album order. -/
theorem runCore_songs_eq (tokenize : String → List Nat) (embed : String → List ℚ)
    (artist album : String) (songs : List String) (fetch : String → Option String) :
    (runCore tokenize embed artist album songs fetch).1.songs =
      songs.map (fun title => songDataOf title (calculate_token_metrics tokenize (fetch title))) := by
  simp [runCore, List.map_map, Function.comp]

/-- The token counts reported per song entry equal the per-track metric
token counts, in album order. -/
theorem runCore_tokens_eq (tokenize : String → List Nat) (embed : String → List ℚ)
    (artist album : String) (songs : List String) (fetch : String → Option String) :
    (runCore tokenize embed artist album songs fetch).1.songs.map
        (fun sd => sd.lyrics_length_tokens) =
      songs.map (fun title => (calculate_token_metrics tokenize (fetch title)).tokens) := by
  rw [runCore_songs_eq]
  simp [List.map_map, Function.comp, songDataOf]

/-- The reported total is the sum of the per-track token counts. -/
theorem runCore_total_eq (tokenize : String → List Nat) (embed : String → List ℚ)
    (artist album : String) (songs : List String) (fetch : String → Option String) :
    (runCore tokenize embed artist album songs fetch).1.total_tokens_all_songs =
      (songs.map (fun title => (calculate_token_metrics tokenize (fetch title)).tokens)).sum := by
  simp only [runCore, List.map_map]
  rfl

/-- The reported average is the rounded total over the number of tracks,
zero for an empty track list. -/
theorem runCore_avg_eq (tokenize : String → List Nat) (embed : String → List ℚ)
    (artist album : String) (songs : List String) (fetch : String → Option String) :
    (runCore tokenize embed artist album songs fetch).1.avg_tokens_per_song =
      (if songs.isEmpty then 0
       else round2
         ((((songs.map (fun title => (calculate_token_metrics tokenize (fetch title)).tokens)).sum : ℚ)) /
           (songs.length : ℚ))) := by
  simp only [runCore, List.map_map]
  rfl

/-- The returned fingerprint is the embedding hash of the ordered
per-track token counts. -/
theorem runCore_hash_eq (tokenize : String → List Nat) (embed : String → List ℚ)
    (artist album : String) (songs : List String) (fetch : String → Option String) :
    (runCore tokenize embed artist album songs fetch).2 =
      generate_embedding_hash embed
        ((songs.map (fun title => (calculate_token_metrics tokenize (fetch title)).tokens)).map
          Int.ofNat) := by
  simp only [runCore, List.map_map]
  rfl

/-! ## Claim C1 -/

/-- C1: with the pinned (deterministic) tokenizer and embedding provider,
two runs whose reports carry element-for-element equal ordered token-count
sequences produce the same fingerprint hex digest, independent of artist
name, album name, track titles, or any lyrics content beyond the token
counts. -/
theorem fingerprint_function_of_token_counts
    (tokenize : String → List Nat) (embed : String → List ℚ)
    (artist1 album1 : String) (songs1 : List String) (fetch1 : String → Option String)
    (artist2 album2 : String) (songs2 : List String) (fetch2 : String → Option String)
    (h : List.Forall₂ (· = ·)
      ((runCore tokenize embed artist1 album1 songs1 fetch1).1.songs.map
        (fun sd => sd.lyrics_length_tokens))
      ((runCore tokenize embed artist2 album2 songs2 fetch2).1.songs.map
        (fun sd => sd.lyrics_length_tokens))) :
    (runCore tokenize embed artist1 album1 songs1 fetch1).2 =
      (runCore tokenize embed artist2 album2 songs2 fetch2).2 := by
  rw [List.forall₂_eq_eq_eq] at h
  rw [runCore_tokens_eq, runCore_tokens_eq] at h
  rw [runCore_hash_eq, runCore_hash_eq, h]

/-- Witness for C1: two one-track runs with different artist, album,
track title, and lyrics content, but equal token counts, get the same
fingerprint. -/
theorem fingerprint_function_of_token_counts_witness :
    (runCore cTokenize cEmbedLen ("Artist X") ("Debut") ["s1"] cFetch1).2 =
      (runCore cTokenize cEmbedLen ("Artist Y") ("Other") ["t1"] cFetch2).2 :=
  fingerprint_function_of_token_counts cTokenize cEmbedLen
    ("Artist X") ("Debut") ["s1"] cFetch1 ("Artist Y") ("Other") ["t1"] cFetch2
    (by rw [List.forall₂_eq_eq_eq, runCore_tokens_eq, runCore_tokens_eq]; decide)

/-! ## Claim C4 -/

/-- C4: when lyrics retrieval fails for one track the run does not
abort: every track yields exactly one report entry in album order, the
failed track's entry has all metric fields zero, and the total counts
only the successfully fetched tracks. -/
theorem run_missing_lyrics_nonfatal
    (tokenize : String → List Nat) (embed : String → List ℚ)
    (artist album songA songB lyA : String)
    (hAB : songB ≠ songA) (_hA : lyA ≠ "") :
    (∀ (songs : List String) (fetch : String → Option String),
      (runCore tokenize embed artist album songs fetch).1.songs.length = songs.length) ∧
    (runCore tokenize embed artist album [songA, songB]
        (fun t => if t = songA then some lyA else none)).1.songs =
      [songDataOf songA (calculate_token_metrics tokenize (some lyA)),
       zeroSongData songB] ∧
    (runCore tokenize embed artist album [songA, songB]
        (fun t => if t = songA then some lyA else none)).1.total_tokens_all_songs =
      (calculate_token_metrics tokenize (some lyA)).tokens := by
  refine ⟨?_, ?_, ?_⟩
  · intro songs fetch
    rw [runCore_songs_eq]
    simp
  · have hfa : (if songA = songA then some lyA else none) = some lyA := if_pos rfl
    have hfb : (if songB = songA then some lyA else none) = none := if_neg hAB
    rw [runCore_songs_eq]
    simp only [List.map_cons, List.map_nil, hfa, hfb]
    rfl
  · have hfa : (if songA = songA then some lyA else none) = some lyA := if_pos rfl
    have hfb : (if songB = songA then some lyA else none) = none := if_neg hAB
    rw [runCore_total_eq]
    simp only [List.map_cons, List.map_nil, hfa, hfb]
    have hz : (calculate_token_metrics tokenize none).tokens = 0 := rfl
    rw [hz]
    simp

/-- Witness for C4: a two-track album where only the first track has
lyrics. -/
theorem run_missing_lyrics_nonfatal_witness :
    (runCore cTokenize cEmbedLen ("Artist X") ("Debut") [("Song A"), ("Song B")]
        (fun t => if t = ("Song A") then some lyricsA else none)).1.songs =
      [songDataOf ("Song A") (calculate_token_metrics cTokenize (some lyricsA)),
       zeroSongData ("Song B")] ∧
    (runCore cTokenize cEmbedLen ("Artist X") ("Debut") [("Song A"), ("Song B")]
        (fun t => if t = ("Song A") then some lyricsA else none)).1.total_tokens_all_songs =
      (calculate_token_metrics cTokenize (some lyricsA)).tokens :=
  ⟨(run_missing_lyrics_nonfatal cTokenize cEmbedLen ("Artist X") ("Debut")
      ("Song A") ("Song B") lyricsA (by decide) (by decide)).2.1,
   (run_missing_lyrics_nonfatal cTokenize cEmbedLen ("Artist X") ("Debut")
      ("Song A") ("Song B") lyricsA (by decide) (by decide)).2.2⟩

/-! ## Claim C5 -/

/-- C5: for every finished run, the reported total equals the sum of the
per-track token counts and the reported average is the total divided by
the number of tracks rounded to two decimal places (zero for zero
tracks); in particular for per-track token counts 100, 50, 0 the total
is 150 and the average is 50. -/
theorem run_aggregate_totals
    (tokenize : String → List Nat) (embed : String → List ℚ)
    (artist album : String) (songs : List String) (fetch : String → Option String) :
    (runCore tokenize embed artist album songs fetch).1.total_tokens_all_songs =
      ((runCore tokenize embed artist album songs fetch).1.songs.map
        (fun sd => sd.lyrics_length_tokens)).sum ∧
    (runCore tokenize embed artist album songs fetch).1.avg_tokens_per_song =
      (if songs.length = 0 then 0
       else round2
         (((runCore tokenize embed artist album songs fetch).1.total_tokens_all_songs : ℚ) /
           (songs.length : ℚ))) ∧
    ((runCore cTokenize cEmbedLen ("X") ("D") ["A", "B", "C"] cFetch).1.songs.map
      (fun sd => sd.lyrics_length_tokens)) = [100, 50, 0] ∧
    (runCore cTokenize cEmbedLen ("X") ("D") ["A", "B", "C"] cFetch).1.total_tokens_all_songs
      = 150 ∧
    (runCore cTokenize cEmbedLen ("X") ("D") ["A", "B", "C"] cFetch).1.avg_tokens_per_song
      = 50 := by
  refine ⟨?_, ?_, ?_, ?_, ?_⟩
  · rw [runCore_total_eq, runCore_tokens_eq]
  · rw [runCore_avg_eq, runCore_total_eq]
    rcases songs with _ | ⟨s, ss⟩
    · simp
    · simp
  · rw [runCore_tokens_eq]
    decide
  · rw [runCore_total_eq]
    decide
  · rw [runCore_avg_eq]
    have hsum : ((["A", "B", "C"] : List String).map
        (fun title => (calculate_token_metrics cTokenize (cFetch title)).tokens)).sum = 150 := by
      decide
    rw [hsum]
    norm_num
    have h50 := round2_intCast 50
    push_cast at h50
    exact h50

/-! ## Claim C8 (corrected) -/

/-- C8 counterexample: a well-formed collaborator response whose songs
list is empty is accepted by `get_first_album_songs` — the stage
succeeds and hands the empty track list onward, it does not fail
fatally as the claim states. -/
theorem tracklist_empty_accepted_cex :
    (get_first_album_songs cexJsonLoads cexTracklistResp).isSome = true ∧
    get_first_album_songs cexJsonLoads cexTracklistResp =
      some (JVal.jstr ("X"), JVal.jarr []) :=
  ⟨rfl, rfl⟩

/-- C8 amended: tracklist resolution fails fatally when the response is
unparsable or malformed (parse failure, non-object document, or a
missing album_name or songs key), but it does not require the track list
to be non-empty: any response carrying both keys succeeds with their
values unchecked, and with an empty track list the pipeline proceeds to
a zero-track report whose fingerprint is that of the empty sequence. -/
theorem tracklist_resolution_amended
    (json_loads : String → Option JVal) (resp : String)
    (kvs : List (String × JVal)) (a s : JVal)
    (h1 : json_loads (strip_fences resp) = some (JVal.jobj kvs))
    (h2 : lookupKv kvs ("album_name") = some a)
    (h3 : lookupKv kvs ("songs") = some s) :
    get_first_album_songs json_loads resp = some (a, s) ∧
    (∀ r2 : String, get_first_album_songs (fun _ => none) r2 = none) ∧
    (∀ (tokenize : String → List Nat) (embed : String → List ℚ)
      (artist albumStr : String) (fetch : String → Option String),
      (runCore tokenize embed artist albumStr [] fetch).1.songs = [] ∧
      (runCore tokenize embed artist albumStr [] fetch).1.total_tokens_all_songs = 0 ∧
      (runCore tokenize embed artist albumStr [] fetch).1.avg_tokens_per_song = 0 ∧
      (runCore tokenize embed artist albumStr [] fetch).2 =
        generate_embedding_hash embed []) := by
  refine ⟨?_, fun r2 => rfl, fun tokenize embed artist albumStr fetch => ⟨rfl, rfl, rfl, rfl⟩⟩
  simp [get_first_album_songs, h1, h2, h3]

/-- Witness for the amended C8 at the concrete empty-tracklist response. -/
theorem tracklist_resolution_amended_witness :
    get_first_album_songs cexJsonLoads cexTracklistResp =
      some (JVal.jstr ("X"), JVal.jarr []) ∧
    (runCore cTokenize cEmbedLen ("A") ("X") [] (fun _ => none)).1.songs = [] :=
  ⟨(tracklist_resolution_amended cexJsonLoads cexTracklistResp
      [(("album_name"), JVal.jstr ("X")), (("songs"), JVal.jarr [])]
      (JVal.jstr ("X")) (JVal.jarr []) rfl rfl rfl).1,
   ((tracklist_resolution_amended cexJsonLoads cexTracklistResp
      [(("album_name"), JVal.jstr ("X")), (("songs"), JVal.jarr [])]
      (JVal.jstr ("X")) (JVal.jarr []) rfl rfl rfl).2.2 cTokenize cEmbedLen
      ("A") ("X") (fun _ => none)).1⟩

/-! ## Claim C9 (corrected) -/

/-- C9 counterexample: when the scraper item has neither a channel name
nor an author, `get_artist_from_youtube` does not fail — it succeeds and
returns the absent value (Python None), which the pipeline then carries
forward. -/
theorem identity_absent_accepted_cex :
    (get_artist_from_youtube [{ channelName := none, author := none }]).isSome = true ∧
    get_artist_from_youtube [{ channelName := none, author := none }] = some none :=
  ⟨rfl, rfl⟩

/-- C9 amended: identity resolution fails (aborting the run) exactly
when the scraper returns no result items; otherwise it returns the first
item's channel name if truthy else its author, with no validation — the
returned display name may be absent or empty and the run continues with
it. -/
theorem identity_resolution_amended (results : List YtItem) :
    (get_artist_from_youtube results).isNone = results.isEmpty ∧
    (∀ (item : YtItem) (rest : List YtItem),
      get_artist_from_youtube (item :: rest) = some (pyOr item.channelName item.author)) ∧
    get_artist_from_youtube [{ channelName := some (""), author := some ("") }] =
      some (some ("")) ∧
    get_artist_from_youtube [{ channelName := none, author := some ("A") }] =
      some (some ("A")) := by
  refine ⟨?_, fun item rest => rfl, rfl, rfl⟩
  cases results <;> rfl
